import Mathlib

/-!
Shallow embedding of `crates/llm-ls/src/adaptors.rs` (the adaptor layer of
llm-ls): backend selection, request-body construction, header construction
and response parsing for the HuggingFace, TGI, Ollama and OpenAI backends.

JSON values are modelled by the inductive `Json`, with numbers as rationals
(the adaptor layer never computes on them, it only moves them around).
A raw response text is modelled as `Option Json`: `some j` is a text that
the external JSON parser (serde_json) decodes to the value `j`, `none` is a
text that is not valid JSON.  serde's derived deserializers for the small
response structs are modelled as explicit shape-matching functions
`Json → Option _`; `#[serde(untagged)]` enums try their variants in
declaration order and the first success wins.

Rust `Result<T>` becomes `Except Error T`; a Rust panic (the `expect` calls
in the Ollama/OpenAI body builders) is a third outcome, `Outcome.fatal`.
-/

namespace LlmLs

/-- JSON values.  Numbers are modelled as rationals; objects keep their
fields as an ordered association list. -/
inductive Json where
  | null : Json
  | bool : Bool → Json
  | num : ℚ → Json
  | str : String → Json
  | arr : List Json → Json
  | obj : List (String × Json) → Json
deriving Repr

/-- Field lookup in a JSON object's association list; models
`serde_json::Map::get` (keys of a parsed object are unique). -/
def Json.getField (fields : List (String × Json)) (key : String) : Option Json :=
  (fields.find? (fun p => p.1 == key)).map (fun p => p.2)

/-- Modelled from the spec: `Generation` (defined in the llm-ls crate root,
outside `adaptors.rs`) is a single normalized output holding only
`generated_text`; its construction from backend payloads is visible in the
`From` impls of `adaptors.rs`. -/
structure Generation where
  generated_text : String
deriving DecidableEq, Repr

/-- Modelled from the spec: `APIError` (defined outside `adaptors.rs`) is the
shared error object shape carrying a free-form message, an object with an
`error` string field. -/
structure APIError where
  error : String
deriving DecidableEq, Repr

/-- `OpenAIErrorLoc` of `adaptors.rs`: untagged union of a string and a
`u32` location. -/
inductive OpenAIErrorLoc where
  | string : String → OpenAIErrorLoc
  | int : ℕ → OpenAIErrorLoc
deriving DecidableEq, Repr

/-- `OpenAIErrorDetail` of `adaptors.rs`: one `{loc, msg, type}` record. -/
structure OpenAIErrorDetail where
  loc : OpenAIErrorLoc
  msg : String
  type : String
deriving DecidableEq, Repr

/-- `OpenAIError` of `adaptors.rs`: an ordered list of detail records. -/
structure OpenAIError where
  detail : List OpenAIErrorDetail
deriving DecidableEq, Repr

/-- Modelled from the spec: the error type of `crate::error` (not under
`adaptors.rs`), restricted to the variants the adaptor layer produces:
adaptor mismatch, a serde_json deserialization failure, an invalid HTTP
header value, and one backend-tagged variant per backend carrying the
backend's native error payload. -/
inductive Error where
  | invalidAdaptor : Error
  | deserialization : Error
  | invalidHeaderValue : Error
  | tgi : APIError → Error
  | inferenceApi : APIError → Error
  | ollama : APIError → Error
  | openAI : OpenAIError → Error
deriving DecidableEq, Repr

/-- Deserializer for `Generation` (derived serde semantics): an object whose
`generated_text` field is a string; extra fields are ignored. -/
def deserGeneration : Json → Option Generation
  | .obj fs =>
    match Json.getField fs "generated_text" with
    | some (.str s) => some ⟨s⟩
    | _ => none
  | _ => none

/-- Deserializer for `Vec<Generation>`: a JSON array each of whose elements
deserializes as a `Generation`, in source order. -/
def deserGenerations : Json → Option (List Generation)
  | .arr xs => xs.mapM deserGeneration
  | _ => none

/-- Deserializer for `APIError`: an object whose `error` field is a string. -/
def deserAPIError : Json → Option APIError
  | .obj fs =>
    match Json.getField fs "error" with
    | some (.str s) => some ⟨s⟩
    | _ => none
  | _ => none

/-- Modelled from the spec: `APIResponse` (defined outside `adaptors.rs`) is
the untagged union of the three valid HuggingFace-style shapes, disambiguated
purely by JSON structure in this order: single generation object, list of
generation objects, error object. -/
inductive APIResponse where
  | generation : Generation → APIResponse
  | generations : List Generation → APIResponse
  | error : APIError → APIResponse
deriving DecidableEq, Repr

/-- Untagged deserializer for `APIResponse`: first shape that validates
wins. -/
def deserAPIResponse (j : Json) : Option APIResponse :=
  match deserGeneration j with
  | some g => some (.generation g)
  | none =>
    match deserGenerations j with
    | some gens => some (.generations gens)
    | none => (deserAPIError j).map APIResponse.error

/-- `parse_tgi_text` of `adaptors.rs`: a single generation object succeeds, a
list of generations is an adaptor mismatch, an error object is a Tgi-tagged
error; a text that is not JSON or matches no shape is a deserialization
error. -/
def parse_tgi_text (text : Option Json) : Except Error (List Generation) :=
  match text with
  | none => .error .deserialization
  | some j =>
    match deserAPIResponse j with
    | none => .error .deserialization
    | some (.generation g) => .ok [g]
    | some (.generations _) => .error .invalidAdaptor
    | some (.error e) => .error (.tgi e)

/-- `parse_api_text` of `adaptors.rs` (HuggingFace backend): accepts a single
generation object, a list of generation objects, or an error object. -/
def parse_api_text (text : Option Json) : Except Error (List Generation) :=
  match text with
  | none => .error .deserialization
  | some j =>
    match deserAPIResponse j with
    | none => .error .deserialization
    | some (.generation g) => .ok [g]
    | some (.generations gens) => .ok gens
    | some (.error e) => .error (.inferenceApi e)

/-- `OllamaGeneration` of `adaptors.rs`: an object with a `response` string
field. -/
structure OllamaGeneration where
  response : String
deriving DecidableEq, Repr

/-- Deserializer for `OllamaGeneration`. -/
def deserOllamaGeneration : Json → Option OllamaGeneration
  | .obj fs =>
    match Json.getField fs "response" with
    | some (.str s) => some ⟨s⟩
    | _ => none
  | _ => none

/-- `OllamaAPIResponse` of `adaptors.rs`: untagged union, generation tried
before error. -/
inductive OllamaAPIResponse where
  | generation : OllamaGeneration → OllamaAPIResponse
  | error : APIError → OllamaAPIResponse
deriving DecidableEq, Repr

/-- Untagged deserializer for `OllamaAPIResponse`. -/
def deserOllamaAPIResponse (j : Json) : Option OllamaAPIResponse :=
  match deserOllamaGeneration j with
  | some g => some (.generation g)
  | none => (deserAPIError j).map OllamaAPIResponse.error

/-- `parse_ollama_text` of `adaptors.rs`. -/
def parse_ollama_text (text : Option Json) : Except Error (List Generation) :=
  match text with
  | none => .error .deserialization
  | some j =>
    match deserOllamaAPIResponse j with
    | none => .error .deserialization
    | some (.generation g) => .ok [⟨g.response⟩]
    | some (.error e) => .error (.ollama e)

/-- `OpenAIGenerationChoice` of `adaptors.rs`: an object with a `text` string
field. -/
structure OpenAIGenerationChoice where
  text : String
deriving DecidableEq, Repr

/-- Deserializer for `OpenAIGenerationChoice`. -/
def deserOpenAIGenerationChoice : Json → Option OpenAIGenerationChoice
  | .obj fs =>
    match Json.getField fs "text" with
    | some (.str s) => some ⟨s⟩
    | _ => none
  | _ => none

/-- `OpenAIGeneration` of `adaptors.rs`: an object with a `choices` array of
choice objects. -/
structure OpenAIGeneration where
  choices : List OpenAIGenerationChoice
deriving DecidableEq, Repr

/-- Deserializer for `OpenAIGeneration`. -/
def deserOpenAIGeneration : Json → Option OpenAIGeneration
  | .obj fs =>
    match Json.getField fs "choices" with
    | some (.arr xs) => (xs.mapM deserOpenAIGenerationChoice).map (fun cs => ⟨cs⟩)
    | _ => none
  | _ => none

/-- Deserializer for `OpenAIErrorLoc` (untagged: string tried before `u32`;
a `u32` is a JSON number that is an integer in `[0, 2^32)`). -/
def deserOpenAIErrorLoc : Json → Option OpenAIErrorLoc
  | .str s => some (.string s)
  | .num q =>
    if q.den = 1 ∧ 0 ≤ q.num ∧ q.num < 2 ^ 32 then some (.int q.num.toNat) else none
  | _ => none

/-- Deserializer for `OpenAIErrorDetail`: an object with `loc`, `msg` and
`type` fields. -/
def deserOpenAIErrorDetail : Json → Option OpenAIErrorDetail
  | .obj fs =>
    match Json.getField fs "loc", Json.getField fs "msg", Json.getField fs "type" with
    | some l, some (.str m), some (.str t) =>
      (deserOpenAIErrorLoc l).map (fun loc => ⟨loc, m, t⟩)
    | _, _, _ => none
  | _ => none

/-- Deserializer for `OpenAIError`: an object with a `detail` array of detail
records. -/
def deserOpenAIError : Json → Option OpenAIError
  | .obj fs =>
    match Json.getField fs "detail" with
    | some (.arr xs) => (xs.mapM deserOpenAIErrorDetail).map (fun ds => ⟨ds⟩)
    | _ => none
  | _ => none

/-- `OpenAIAPIResponse` of `adaptors.rs`: untagged union, generation tried
before error. -/
inductive OpenAIAPIResponse where
  | generation : OpenAIGeneration → OpenAIAPIResponse
  | error : OpenAIError → OpenAIAPIResponse
deriving DecidableEq, Repr

/-- Untagged deserializer for `OpenAIAPIResponse`. -/
def deserOpenAIAPIResponse (j : Json) : Option OpenAIAPIResponse :=
  match deserOpenAIGeneration j with
  | some g => some (.generation g)
  | none => (deserOpenAIError j).map OpenAIAPIResponse.error

/-- `parse_openai_text` of `adaptors.rs`: each choice becomes one
`Generation`, in choice order. -/
def parse_openai_text (text : Option Json) : Except Error (List Generation) :=
  match text with
  | none => .error .deserialization
  | some j =>
    match deserOpenAIAPIResponse j with
    | none => .error .deserialization
    | some (.generation completion) => .ok (completion.choices.map (fun c => ⟨c.text⟩))
    | some (.error e) => .error (.openAI e)

/-- `Display for OpenAIErrorLoc` of `adaptors.rs`: a string renders as
itself, an integer in decimal. -/
def OpenAIErrorLoc.render : OpenAIErrorLoc → String
  | .string s => s
  | .int n => toString n

/-- `Display for OpenAIError` of `adaptors.rs`: one `loc: msg (type)` line
per detail record, newline-separated. -/
def OpenAIError.render (e : OpenAIError) : String :=
  String.intercalate "\n"
    (e.detail.map (fun d => d.loc.render ++ ": " ++ d.msg ++ " (" ++ d.type ++ ")"))

/-- `Adaptor` of `adaptors.rs`: the closed backend variant set.  The
`#[default]` attribute marks `HuggingFace`. -/
inductive Adaptor where
  | HuggingFace : Adaptor
  | Ollama : Adaptor
  | OpenAi : Adaptor
  | Tgi : Adaptor
deriving DecidableEq, Repr

/-- `Adaptor::default()`: `HuggingFace`. -/
def Adaptor.default : Adaptor := .HuggingFace

/-- `Display for Adaptor` of `adaptors.rs`. -/
def Adaptor.display : Adaptor → String
  | .HuggingFace => "huggingface"
  | .Ollama => "ollama"
  | .OpenAi => "openai"
  | .Tgi => "tgi"

/-- Serialized form of `Adaptor` under `#[serde(rename_all = "lowercase")]`:
each variant name lowercased. -/
def Adaptor.serialized : Adaptor → String
  | .HuggingFace => "huggingface"
  | .Ollama => "ollama"
  | .OpenAi => "openai"
  | .Tgi => "tgi"

/-- Deserializer for `Adaptor` under `#[serde(rename_all = "lowercase")]`:
exactly the four lowercase tags are accepted. -/
def Adaptor.deserialize (s : String) : Option Adaptor :=
  if s = "huggingface" then some .HuggingFace
  else if s = "ollama" then some .Ollama
  else if s = "openai" then some .OpenAi
  else if s = "tgi" then some .Tgi
  else none

/-- `RequestParams` of the llm-ls crate root, with the fields
`adaptors.rs` reads: `max_new_tokens: u32`, `temperature: f32`,
`do_sample: bool`, `top_p: f32`, `stop_tokens: Vec<String>` (floats
modelled as rationals; the adaptor layer never computes on them). -/
structure RequestParams where
  max_new_tokens : ℕ
  temperature : ℚ
  do_sample : Bool
  top_p : ℚ
  stop_tokens : List String
deriving DecidableEq, Repr

/-- Modelled from the spec: the fields of `CompletionParams` (defined
outside `adaptors.rs`) that the adaptor layer reads: the optional backend
selector, the generation parameters, and the optional opaque JSON request
template (`request_body`, a JSON object's field map). -/
structure CompletionParams where
  adaptor : Option Adaptor
  request_params : RequestParams
  request_body : Option (List (String × Json))
deriving Repr

/-- Modelled from the spec: `Ide` (defined outside `adaptors.rs`) is a
free-form enumerated caller identity tag; we model the tag by its rendered
(`Debug`-formatted) name. -/
abbrev Ide := String

/-- Modelled from the spec: the client name constant of the llm-ls crate
root (`<client-name>` of the User-Agent value). -/
def NAME : String := "llm-ls"

/-- Modelled from the spec: the client version constant of the llm-ls crate
root (`<client-version>` of the User-Agent value). -/
def VERSION : String := "0.4.0"

/-- The User-Agent string built in `build_tgi_headers`:
`format!("{NAME}/{VERSION}; rust/unknown; ide/{ide:?}")`. -/
def user_agent (ide : Ide) : String :=
  NAME ++ "/" ++ VERSION ++ "; rust/unknown; ide/" ++ ide

/-- An HTTP header collection, as an ordered list of (name, value) pairs in
insertion order. -/
abbrev HeaderMap := List (String × String)

/-- Whether a character is acceptable in an HTTP header value, per
`http::HeaderValue::from_str`: each byte must be horizontal tab or satisfy
`b >= 32 && b != 127`.  Codepoints above 127 encode to bytes above 127,
which always satisfy the byte test, so the byte-level check coincides with
this per-character check. -/
def validHeaderChar (c : Char) : Bool :=
  c.toNat == 9 || (decide (32 ≤ c.toNat) && c.toNat != 127)

/-- Whether a string is a valid HTTP header value. -/
def validHeaderString (s : String) : Bool :=
  s.toList.all validHeaderChar

/-- `HeaderValue::from_str`: succeeds with the value unchanged exactly when
every character is valid, and otherwise fails with a header-construction
error. -/
def headerValueFromStr (s : String) : Except Error String :=
  if validHeaderString s then .ok s else .error .invalidHeaderValue

/-- `build_tgi_headers` of `adaptors.rs`: insert the User-Agent header, then
the `Authorization: Bearer <token>` header only when a token is supplied;
either `HeaderValue::from_str` failure aborts with its error. -/
def build_tgi_headers (api_token : Option String) (ide : Ide) : Except Error HeaderMap :=
  match headerValueFromStr (user_agent ide) with
  | .error e => .error e
  | .ok ua =>
    match api_token with
    | none => .ok [("user-agent", ua)]
    | some tok =>
      match headerValueFromStr ("Bearer " ++ tok) with
      | .error e => .error e
      | .ok auth => .ok [("user-agent", ua), ("authorization", auth)]

/-- `build_api_headers` of `adaptors.rs`: delegates to `build_tgi_headers`. -/
def build_api_headers (api_token : Option String) (ide : Ide) : Except Error HeaderMap :=
  build_tgi_headers api_token ide

/-- `build_ollama_headers` of `adaptors.rs`: an empty header set. -/
def build_ollama_headers : Except Error HeaderMap :=
  .ok []

/-- `build_openai_headers` of `adaptors.rs`: delegates to
`build_api_headers`. -/
def build_openai_headers (api_token : Option String) (ide : Ide) : Except Error HeaderMap :=
  build_api_headers api_token ide

/-- `build_tgi_body` of `adaptors.rs`. -/
def build_tgi_body (prompt : String) (params : RequestParams) : Json :=
  .obj [("inputs", .str prompt),
        ("parameters", .obj
          [("max_new_tokens", .num (params.max_new_tokens : ℚ)),
           ("temperature", .num params.temperature),
           ("do_sample", .bool params.do_sample),
           ("top_p", .num params.top_p),
           ("stop_tokens", .arr (params.stop_tokens.map Json.str))])]

/-- `build_api_body` of `adaptors.rs`: delegates to `build_tgi_body`. -/
def build_api_body (prompt : String) (params : RequestParams) : Json :=
  build_tgi_body prompt params

/-- `build_ollama_body` of `adaptors.rs`.  A missing `request_body` hits the
`expect` call, i.e. a panic, modelled as `none`; a present `request_body`
without a `model` field serializes `Option::None` — JSON `null` — into the
`model` position. -/
def build_ollama_body (prompt : String) (params : CompletionParams) : Option Json :=
  match params.request_body with
  | none => none
  | some body =>
    some (.obj [("prompt", .str prompt),
                ("model", (Json.getField body "model").getD .null),
                ("stream", .bool false),
                ("options", .obj
                  [("num_predict", .num (params.request_params.max_new_tokens : ℚ)),
                   ("temperature", .num params.request_params.temperature),
                   ("top_p", .num params.request_params.top_p),
                   ("stop", .arr (params.request_params.stop_tokens.map Json.str))])])

/-- `build_openai_body` of `adaptors.rs`.  Same treatment of `request_body`
as `build_ollama_body`. -/
def build_openai_body (prompt : String) (params : CompletionParams) : Option Json :=
  match params.request_body with
  | none => none
  | some body =>
    some (.obj [("prompt", .str prompt),
                ("model", (Json.getField body "model").getD .null),
                ("max_tokens", .num (params.request_params.max_new_tokens : ℚ)),
                ("temperature", .num params.request_params.temperature),
                ("top_p", .num params.request_params.top_p),
                ("stop", .arr (params.request_params.stop_tokens.map Json.str))])

/-- Outcome of a Rust call that may return a value, return an error, or
panic: `fatal` carries the panic message of the `expect` call. -/
inductive Outcome (α : Type) where
  | ok : α → Outcome α
  | err : Error → Outcome α
  | fatal : String → Outcome α
deriving Repr

/-- `adapt_body` of `adaptors.rs`: resolves the backend selector (default
`HuggingFace`) and routes to the matching body builder; the Ollama/OpenAI
builders' panic on a missing `request_body` surfaces as `Outcome.fatal`. -/
def adapt_body (prompt : String) (params : CompletionParams) : Outcome Json :=
  match params.adaptor.getD Adaptor.default with
  | .HuggingFace => .ok (build_api_body prompt params.request_params)
  | .Ollama =>
    match build_ollama_body prompt params with
    | some j => .ok j
    | none => .fatal "Unable to make request for ollama"
  | .OpenAi =>
    match build_openai_body prompt params with
    | some j => .ok j
    | none => .fatal "Unable to make request for openai"
  | .Tgi => .ok (build_tgi_body prompt params.request_params)

/-- `adapt_headers` of `adaptors.rs`. -/
def adapt_headers (adaptor : Option Adaptor) (api_token : Option String) (ide : Ide) :
    Except Error HeaderMap :=
  match adaptor.getD Adaptor.default with
  | .HuggingFace => build_api_headers api_token ide
  | .Ollama => build_ollama_headers
  | .OpenAi => build_openai_headers api_token ide
  | .Tgi => build_tgi_headers api_token ide

/-- `parse_generations` of `adaptors.rs`. -/
def parse_generations (adaptor : Option Adaptor) (text : Option Json) :
    Except Error (List Generation) :=
  match adaptor.getD Adaptor.default with
  | .HuggingFace => parse_api_text text
  | .Ollama => parse_ollama_text text
  | .OpenAi => parse_openai_text text
  | .Tgi => parse_tgi_text text

/-- C1 (counterexample): `parse_generations` does not return equal results
for `HuggingFace` and `Tgi` on the same raw text: on the one-element JSON
array `[{"generated_text": "hi"}]` the HuggingFace parser succeeds while the
Tgi parser returns `InvalidAdaptor`. -/
theorem c1_counterexample :
    parse_generations (some Adaptor.HuggingFace)
        (some (Json.arr [Json.obj [("generated_text", Json.str "hi")]])) ≠
      parse_generations (some Adaptor.Tgi)
        (some (Json.arr [Json.obj [("generated_text", Json.str "hi")]])) :=
  fun h => Except.noConfusion h

/-- C1 (amended): the HuggingFace and Tgi backend selectors reuse the same
body and header builders, so `adapt_body` and `adapt_headers` return equal
results for the two selectors on all arguments; `parse_generations` however
routes to two different parsers that agree on every input except that a
list-of-generations payload is accepted by HuggingFace and rejected by Tgi
with `InvalidAdaptor`, and a backend error object is tagged `InferenceApi`
by HuggingFace but `Tgi` by Tgi. -/
theorem c1_amended (prompt : String) (rp : RequestParams)
    (rb : Option (List (String × Json))) (tok : Option String) (ide : Ide)
    (t : Option Json) :
    adapt_body prompt ⟨some Adaptor.HuggingFace, rp, rb⟩ =
        adapt_body prompt ⟨some Adaptor.Tgi, rp, rb⟩ ∧
    adapt_headers (some Adaptor.HuggingFace) tok ide =
        adapt_headers (some Adaptor.Tgi) tok ide ∧
    (parse_generations (some Adaptor.HuggingFace) t =
        parse_generations (some Adaptor.Tgi) t ∨
      (∃ gens, parse_generations (some Adaptor.HuggingFace) t = Except.ok gens ∧
        parse_generations (some Adaptor.Tgi) t = Except.error Error.invalidAdaptor) ∨
      (∃ e, parse_generations (some Adaptor.HuggingFace) t =
          Except.error (Error.inferenceApi e) ∧
        parse_generations (some Adaptor.Tgi) t = Except.error (Error.tgi e))) := by
  refine ⟨rfl, rfl, ?_⟩
  have hhf : parse_generations (some Adaptor.HuggingFace) t = parse_api_text t := rfl
  have htgi : parse_generations (some Adaptor.Tgi) t = parse_tgi_text t := rfl
  rw [hhf, htgi]
  rcases t with _ | j
  · exact Or.inl rfl
  · rcases hr : deserAPIResponse j with _ | r
    · exact Or.inl (by simp [parse_api_text, parse_tgi_text, hr])
    · rcases r with g | gens | e
      · exact Or.inl (by simp [parse_api_text, parse_tgi_text, hr])
      · exact Or.inr (Or.inl ⟨gens, by simp [parse_api_text, hr],
          by simp [parse_tgi_text, hr]⟩)
      · exact Or.inr (Or.inr ⟨e, by simp [parse_api_text, hr],
          by simp [parse_tgi_text, hr]⟩)

/-- C2 (counterexample): with the Ollama selector and a `request_body` that
is present but lacks a `model` field, `adapt_body` does not fail: it emits a
request payload whose `model` field is JSON `null`. -/
theorem c2_counterexample :
    adapt_body "p" ⟨some Adaptor.Ollama, ⟨1, 0, false, 0, []⟩, some []⟩ =
      Outcome.ok (Json.obj
        [("prompt", Json.str "p"), ("model", Json.null), ("stream", Json.bool false),
         ("options", Json.obj
           [("num_predict", Json.num 1), ("temperature", Json.num 0),
            ("top_p", Json.num 0), ("stop", Json.arr [])])]) := rfl

/-- C2 (amended): for the Ollama and OpenAI selectors, constructing the
request body with an absent `request_body` fails deterministically (with the
builder's fatal `expect` outcome); but a `request_body` that is present and
merely lacks a `model` field does not fail: the builder emits a payload
whose `model` field is JSON `null`. -/
theorem c2_amended (prompt : String) (params : CompletionParams)
    (hb : params.adaptor = some Adaptor.Ollama ∨ params.adaptor = some Adaptor.OpenAi) :
    (params.request_body = none → ∃ msg, adapt_body prompt params = Outcome.fatal msg) ∧
    (∀ body, params.request_body = some body → Json.getField body "model" = none →
      ∃ rest, adapt_body prompt params =
        Outcome.ok (Json.obj (("prompt", Json.str prompt) ::
          ("model", Json.null) :: rest))) := by
  rcases hb with h | h
  · refine ⟨fun habs => ⟨"Unable to make request for ollama", ?_⟩,
      fun body hbody hmodel =>
        ⟨[("stream", Json.bool false),
          ("options", Json.obj
            [("num_predict", Json.num (params.request_params.max_new_tokens : ℚ)),
             ("temperature", Json.num params.request_params.temperature),
             ("top_p", Json.num params.request_params.top_p),
             ("stop", Json.arr (params.request_params.stop_tokens.map Json.str))])], ?_⟩⟩
    · simp [adapt_body, h, build_ollama_body, habs]
    · simp [adapt_body, h, build_ollama_body, hbody, hmodel]
  · refine ⟨fun habs => ⟨"Unable to make request for openai", ?_⟩,
      fun body hbody hmodel =>
        ⟨[("max_tokens", Json.num (params.request_params.max_new_tokens : ℚ)),
          ("temperature", Json.num params.request_params.temperature),
          ("top_p", Json.num params.request_params.top_p),
          ("stop", Json.arr (params.request_params.stop_tokens.map Json.str))], ?_⟩⟩
    · simp [adapt_body, h, build_openai_body, habs]
    · simp [adapt_body, h, build_openai_body, hbody, hmodel]

/-- C2 (witness): the amended claim at concrete inputs — an Ollama
`CompletionParams` with no `request_body` reaches the fatal outcome, and one
whose `request_body` is the empty object emits a `model: null` payload. -/
theorem c2_amended_witness :
    (∃ msg, adapt_body "p" ⟨some Adaptor.Ollama, ⟨1, 0, false, 0, []⟩, none⟩ =
      Outcome.fatal msg) ∧
    (∃ rest, adapt_body "p" ⟨some Adaptor.Ollama, ⟨1, 0, false, 0, []⟩, some []⟩ =
      Outcome.ok (Json.obj (("prompt", Json.str "p") ::
        ("model", Json.null) :: rest))) :=
  ⟨(c2_amended "p" ⟨some Adaptor.Ollama, ⟨1, 0, false, 0, []⟩, none⟩ (Or.inl rfl)).1 rfl,
   (c2_amended "p" ⟨some Adaptor.Ollama, ⟨1, 0, false, 0, []⟩, some []⟩ (Or.inl rfl)).2
     [] rfl rfl⟩

/-- C3: for every raw text that parses as a JSON array of generation
objects — of any length, including 1 — `parse_generations` with the Tgi
selector returns the adaptor-mismatch error `InvalidAdaptor`, never a
successful list. -/
theorem c3_tgi_rejects_generation_arrays (js : List Json) (gs : List Generation)
    (h : js.mapM deserGeneration = some gs) :
    parse_generations (some Adaptor.Tgi) (some (Json.arr js)) =
      Except.error Error.invalidAdaptor := by
  have h2 : deserGenerations (Json.arr js) = some gs := h
  have h1 : deserGeneration (Json.arr js) = none := rfl
  have hr : deserAPIResponse (Json.arr js) = some (.generations gs) := by
    simp [deserAPIResponse, h1, h2]
  have : parse_generations (some Adaptor.Tgi) (some (Json.arr js)) =
      parse_tgi_text (some (Json.arr js)) := rfl
  rw [this]
  simp [parse_tgi_text, hr]

/-- C3 (witness): the one-element array `[{"generated_text": "x"}]` is a
length-1 array of generation objects and is rejected by the Tgi parser with
`InvalidAdaptor`. -/
theorem c3_witness :
    [Json.obj [("generated_text", Json.str "x")]].mapM deserGeneration =
        some [Generation.mk "x"] ∧
    parse_generations (some Adaptor.Tgi)
        (some (Json.arr [Json.obj [("generated_text", Json.str "x")]])) =
      Except.error Error.invalidAdaptor :=
  ⟨rfl, c3_tgi_rejects_generation_arrays _ _ rfl⟩

/-- Auxiliary: elementwise deserialization with `mapM` yields a list of the
same length as its input. -/
theorem mapM_deserGeneration_length (js : List Json) (gs : List Generation)
    (h : js.mapM deserGeneration = some gs) : gs.length = js.length := by
  induction js generalizing gs with
  | nil => simp only [List.mapM_nil, pure, Option.some.injEq] at h; subst h; rfl
  | cons x xs ih =>
    rw [List.mapM_cons] at h
    rcases hx : deserGeneration x with _ | g <;> rw [hx] at h
    · simp at h
    · rcases hxs : xs.mapM deserGeneration with _ | gs' <;> rw [hxs] at h
      · simp at h
      · simp at h
        subst h
        simp [ih gs' hxs]

/-- C4: the HuggingFace parser maps a JSON array of n generation objects to
the list of those n `Generation`s in payload order (`mapM` deserializes
elementwise in order, so two objects give two `Generation`s), maps a single
generation object to a one-element list, and maps an error-shaped object
(one matching neither generation shape) to a `InferenceApi`-tagged
structured error. -/
theorem c4_hf_parser_shapes :
    (∀ js gs, js.mapM deserGeneration = some gs →
      parse_generations (some Adaptor.HuggingFace) (some (Json.arr js)) =
        Except.ok gs ∧ gs.length = js.length) ∧
    (∀ j g, deserGeneration j = some g →
      parse_generations (some Adaptor.HuggingFace) (some j) = Except.ok [g]) ∧
    (∀ j e, deserGeneration j = none → deserGenerations j = none →
      deserAPIError j = some e →
      parse_generations (some Adaptor.HuggingFace) (some j) =
        Except.error (Error.inferenceApi e)) := by
  refine ⟨fun js gs h => ⟨?_, mapM_deserGeneration_length js gs h⟩,
    fun j g hg => ?_, fun j e h1 h2 h3 => ?_⟩
  · have h2 : deserGenerations (Json.arr js) = some gs := h
    have h1 : deserGeneration (Json.arr js) = none := rfl
    have hr : deserAPIResponse (Json.arr js) = some (.generations gs) := by
      simp [deserAPIResponse, h1, h2]
    show parse_api_text (some (Json.arr js)) = Except.ok gs
    simp [parse_api_text, hr]
  · have hr : deserAPIResponse j = some (.generation g) := by
      simp [deserAPIResponse, hg]
    show parse_api_text (some j) = Except.ok [g]
    simp [parse_api_text, hr]
  · have hr : deserAPIResponse j = some (.error e) := by
      simp [deserAPIResponse, h1, h2, h3]
    show parse_api_text (some j) = Except.error (Error.inferenceApi e)
    simp [parse_api_text, hr]

/-- C4 (witness): the claim at concrete payloads — a two-element array gives
two `Generation`s in order, a single object gives one, and
`{"error": "boom"}` gives an `InferenceApi`-tagged error. -/
theorem c4_witness :
    (parse_generations (some Adaptor.HuggingFace)
        (some (Json.arr [Json.obj [("generated_text", Json.str "a")],
                         Json.obj [("generated_text", Json.str "b")]])) =
      Except.ok [Generation.mk "a", Generation.mk "b"] ∧ (2 : ℕ) = 2) ∧
    parse_generations (some Adaptor.HuggingFace)
        (some (Json.obj [("generated_text", Json.str "c")])) =
      Except.ok [Generation.mk "c"] ∧
    parse_generations (some Adaptor.HuggingFace)
        (some (Json.obj [("error", Json.str "boom")])) =
      Except.error (Error.inferenceApi (APIError.mk "boom")) :=
  ⟨c4_hf_parser_shapes.1 _ [Generation.mk "a", Generation.mk "b"] rfl,
   c4_hf_parser_shapes.2.1 _ (Generation.mk "c") rfl,
   c4_hf_parser_shapes.2.2 _ (APIError.mk "boom") rfl rfl rfl⟩

/-- C5: the OpenAI parser maps `{"choices":[{"text":"a"},{"text":"b"}]}` to
the two generations `"a"`, `"b"` in choice order, maps
`{"detail":[{"loc":"body","msg":"bad","type":"value_error"}]}` to an
OpenAI-tagged error whose rendered detail is `"body: bad (value_error)"`,
and renders `loc` textually whether it is a string or an integer (an
integer `loc` renders in decimal, as in the last conjunct). -/
theorem c5_openai_parsing :
    parse_generations (some Adaptor.OpenAi)
        (some (Json.obj [("choices", Json.arr
          [Json.obj [("text", Json.str "a")], Json.obj [("text", Json.str "b")]])])) =
      Except.ok [Generation.mk "a", Generation.mk "b"] ∧
    parse_generations (some Adaptor.OpenAi)
        (some (Json.obj [("detail", Json.arr [Json.obj
          [("loc", Json.str "body"), ("msg", Json.str "bad"),
           ("type", Json.str "value_error")]])])) =
      Except.error (Error.openAI
        ⟨[⟨OpenAIErrorLoc.string "body", "bad", "value_error"⟩]⟩) ∧
    OpenAIError.render ⟨[⟨OpenAIErrorLoc.string "body", "bad", "value_error"⟩]⟩ =
      "body: bad (value_error)" ∧
    (∀ s, OpenAIErrorLoc.render (OpenAIErrorLoc.string s) = s) ∧
    (∀ n, OpenAIErrorLoc.render (OpenAIErrorLoc.int n) = toString n) ∧
    parse_generations (some Adaptor.OpenAi)
        (some (Json.obj [("detail", Json.arr [Json.obj
          [("loc", Json.num 1), ("msg", Json.str "bad"),
           ("type", Json.str "value_error")]])])) =
      Except.error (Error.openAI
        ⟨[⟨OpenAIErrorLoc.int 1, "bad", "value_error"⟩]⟩) ∧
    OpenAIError.render ⟨[⟨OpenAIErrorLoc.int 1, "bad", "value_error"⟩]⟩ =
      "1: bad (value_error)" :=
  ⟨rfl, rfl, rfl, fun _ => rfl, fun _ => rfl, rfl, rfl⟩

/-- C6: with well-formed parameters (`request_body` holding a string-valued
`model` where required), `adapt_body` produces exactly the documented wire
shape of each backend: the TGI-style `inputs`/`parameters` object for
HuggingFace and Tgi, the Ollama `prompt`/`model`/`stream`/`options` object,
and the flat OpenAI completion object. -/
theorem c6_wire_shapes (prompt : String) (rp : RequestParams)
    (rb : List (String × Json)) (m : String)
    (hm : Json.getField rb "model" = some (Json.str m)) :
    adapt_body prompt ⟨some Adaptor.HuggingFace, rp, some rb⟩ =
      Outcome.ok (Json.obj [("inputs", Json.str prompt),
        ("parameters", Json.obj
          [("max_new_tokens", Json.num (rp.max_new_tokens : ℚ)),
           ("temperature", Json.num rp.temperature),
           ("do_sample", Json.bool rp.do_sample),
           ("top_p", Json.num rp.top_p),
           ("stop_tokens", Json.arr (rp.stop_tokens.map Json.str))])]) ∧
    adapt_body prompt ⟨some Adaptor.Tgi, rp, some rb⟩ =
      Outcome.ok (Json.obj [("inputs", Json.str prompt),
        ("parameters", Json.obj
          [("max_new_tokens", Json.num (rp.max_new_tokens : ℚ)),
           ("temperature", Json.num rp.temperature),
           ("do_sample", Json.bool rp.do_sample),
           ("top_p", Json.num rp.top_p),
           ("stop_tokens", Json.arr (rp.stop_tokens.map Json.str))])]) ∧
    adapt_body prompt ⟨some Adaptor.Ollama, rp, some rb⟩ =
      Outcome.ok (Json.obj [("prompt", Json.str prompt),
        ("model", Json.str m),
        ("stream", Json.bool false),
        ("options", Json.obj
          [("num_predict", Json.num (rp.max_new_tokens : ℚ)),
           ("temperature", Json.num rp.temperature),
           ("top_p", Json.num rp.top_p),
           ("stop", Json.arr (rp.stop_tokens.map Json.str))])]) ∧
    adapt_body prompt ⟨some Adaptor.OpenAi, rp, some rb⟩ =
      Outcome.ok (Json.obj [("prompt", Json.str prompt),
        ("model", Json.str m),
        ("max_tokens", Json.num (rp.max_new_tokens : ℚ)),
        ("temperature", Json.num rp.temperature),
        ("top_p", Json.num rp.top_p),
        ("stop", Json.arr (rp.stop_tokens.map Json.str))]) := by
  refine ⟨rfl, rfl, ?_, ?_⟩ <;>
    simp [adapt_body, build_ollama_body, build_openai_body, hm]

/-- C6 (witness): the wire shapes at concrete parameters. -/
theorem c6_witness :
    Json.getField [("model", Json.str "m")] "model" = some (Json.str "m") ∧
    adapt_body "p" ⟨some Adaptor.Ollama, ⟨2, 3, true, 5, ["s"]⟩,
        some [("model", Json.str "m")]⟩ =
      Outcome.ok (Json.obj [("prompt", Json.str "p"),
        ("model", Json.str "m"),
        ("stream", Json.bool false),
        ("options", Json.obj
          [("num_predict", Json.num ((2 : ℕ) : ℚ)),
           ("temperature", Json.num 3),
           ("top_p", Json.num 5),
           ("stop", Json.arr [Json.str "s"])])]) ∧
    adapt_body "p" ⟨some Adaptor.OpenAi, ⟨2, 3, true, 5, ["s"]⟩,
        some [("model", Json.str "m")]⟩ =
      Outcome.ok (Json.obj [("prompt", Json.str "p"),
        ("model", Json.str "m"),
        ("max_tokens", Json.num ((2 : ℕ) : ℚ)),
        ("temperature", Json.num 3),
        ("top_p", Json.num 5),
        ("stop", Json.arr [Json.str "s"])]) :=
  ⟨rfl,
   (c6_wire_shapes "p" ⟨2, 3, true, 5, ["s"]⟩ [("model", Json.str "m")] "m" rfl).2.2.1,
   (c6_wire_shapes "p" ⟨2, 3, true, 5, ["s"]⟩ [("model", Json.str "m")] "m" rfl).2.2.2⟩

/-- C7: with an absent backend selector, `adapt_body`, `adapt_headers` and
`parse_generations` each behave identically to the same call with the
`HuggingFace` selector, the default backend. -/
theorem c7_default_is_huggingface (prompt : String) (rp : RequestParams)
    (rb : Option (List (String × Json))) (tok : Option String) (ide : Ide)
    (t : Option Json) :
    adapt_body prompt ⟨none, rp, rb⟩ =
        adapt_body prompt ⟨some Adaptor.HuggingFace, rp, rb⟩ ∧
    adapt_headers none tok ide = adapt_headers (some Adaptor.HuggingFace) tok ide ∧
    parse_generations none t = parse_generations (some Adaptor.HuggingFace) t :=
  ⟨rfl, rfl, rfl⟩

/-- Auxiliary: behaviour of `build_tgi_headers` — any character invalid in
an HTTP header value occurring in the token forces a header-construction
error, a valid token yields exactly the User-Agent plus `Bearer`
Authorization pair unaltered, and no token yields only the User-Agent
header. -/
theorem build_tgi_headers_spec (ide : Ide) (tok : String) :
    ((∃ c ∈ tok.toList, validHeaderChar c = false) →
      build_tgi_headers (some tok) ide = Except.error Error.invalidHeaderValue) ∧
    (validHeaderString (user_agent ide) = true →
      validHeaderString ("Bearer " ++ tok) = true →
      build_tgi_headers (some tok) ide =
        Except.ok [("user-agent", user_agent ide),
                   ("authorization", "Bearer " ++ tok)]) ∧
    (validHeaderString (user_agent ide) = true →
      build_tgi_headers none ide = Except.ok [("user-agent", user_agent ide)]) := by
  refine ⟨?_, fun h1 h2 => ?_, fun h1 => ?_⟩
  · rintro ⟨c, hc, hbadc⟩
    have hmem : c ∈ ("Bearer " ++ tok).toList := by
      have hsplit : ("Bearer " ++ tok).toList = "Bearer ".toList ++ tok.toList := by
        simp [String.toList]
      rw [hsplit]
      exact List.mem_append_right _ hc
    have hbad : validHeaderString ("Bearer " ++ tok) = false := by
      rw [validHeaderString, List.all_eq_false]
      exact ⟨c, hmem, by simp [hbadc]⟩
    cases hua : validHeaderString (user_agent ide) <;>
      simp [build_tgi_headers, headerValueFromStr, hua, hbad]
  · simp [build_tgi_headers, headerValueFromStr, h1, h2]
  · simp [build_tgi_headers, headerValueFromStr, h1]

/-- C8: for the HuggingFace, Tgi and OpenAi selectors, `adapt_headers` with
a bearer token containing a newline or any other character invalid in an
HTTP header value returns the header-construction error, never a header set
with an altered value; with a valid token the Authorization header is
exactly `Bearer <token>`; and with no token no Authorization header is
present. -/
theorem c8_headers (a : Adaptor)
    (ha : a = Adaptor.HuggingFace ∨ a = Adaptor.Tgi ∨ a = Adaptor.OpenAi)
    (ide : Ide) (tok : String) :
    ((∃ c ∈ tok.toList, validHeaderChar c = false) →
      adapt_headers (some a) (some tok) ide = Except.error Error.invalidHeaderValue) ∧
    (validHeaderString (user_agent ide) = true →
      validHeaderString ("Bearer " ++ tok) = true →
      adapt_headers (some a) (some tok) ide =
        Except.ok [("user-agent", user_agent ide),
                   ("authorization", "Bearer " ++ tok)]) ∧
    (validHeaderString (user_agent ide) = true →
      adapt_headers (some a) none ide = Except.ok [("user-agent", user_agent ide)]) := by
  have key := build_tgi_headers_spec ide tok
  rcases ha with h | h | h <;> subst h <;> exact key

/-- C8 (witness): the clauses at concrete inputs — the newline token
`"a\nb"` and the carriage-return token `"a\rb"` each give the
header-construction error, the token `"tok"` gives exactly the `Bearer tok`
Authorization header, and no token gives only the User-Agent header. -/
theorem c8_witness :
    adapt_headers (some Adaptor.HuggingFace) (some "a\nb") "Neovim" =
      Except.error Error.invalidHeaderValue ∧
    adapt_headers (some Adaptor.HuggingFace) (some "a\rb") "Neovim" =
      Except.error Error.invalidHeaderValue ∧
    adapt_headers (some Adaptor.HuggingFace) (some "tok") "Neovim" =
      Except.ok [("user-agent", user_agent "Neovim"),
                 ("authorization", "Bearer tok")] ∧
    adapt_headers (some Adaptor.HuggingFace) none "Neovim" =
      Except.ok [("user-agent", user_agent "Neovim")] :=
  ⟨(c8_headers _ (Or.inl rfl) "Neovim" "a\nb").1 (by decide),
   (c8_headers _ (Or.inl rfl) "Neovim" "a\rb").1 (by decide),
   (c8_headers _ (Or.inl rfl) "Neovim" "tok").2.1 (by decide) (by decide),
   (c8_headers _ (Or.inl rfl) "Neovim" "tok").2.2 (by decide)⟩

/-- C9: the backend-to-string mapping is total and bidirectional over the
closed variant set — every variant's `Display` form equals its serialized
form, serialization followed by deserialization is the identity, each
canonical lowercase tag deserializes to its variant, and every serialized
form is one of the four canonical tags. -/
theorem c9_backend_string_mapping :
    (∀ a : Adaptor, a.display = a.serialized) ∧
    (∀ a : Adaptor, Adaptor.deserialize a.serialized = some a) ∧
    (Adaptor.deserialize "huggingface" = some Adaptor.HuggingFace ∧
     Adaptor.deserialize "tgi" = some Adaptor.Tgi ∧
     Adaptor.deserialize "ollama" = some Adaptor.Ollama ∧
     Adaptor.deserialize "openai" = some Adaptor.OpenAi) ∧
    (∀ a : Adaptor, a.serialized = "huggingface" ∨ a.serialized = "tgi" ∨
      a.serialized = "ollama" ∨ a.serialized = "openai") := by
  refine ⟨fun a => by cases a <;> rfl, fun a => by cases a <;> rfl,
    ⟨rfl, rfl, rfl, rfl⟩, fun a => ?_⟩
  cases a <;> simp [Adaptor.serialized]

/-- C10: `parse_generations` is total — for every backend selector and every
raw text it returns either a successful list of `Generation`s or a
structured error; on text that is not valid JSON (modelled as `none`) it
returns the deserialization error, and on JSON that matches no valid shape
for the selected backend it likewise returns the deserialization error, for
each of the four backends.  (Never panicking is the totality of the Lean
function itself.) -/
theorem c10_parse_total (a : Option Adaptor) (t : Option Json) :
    ((∃ gens, parse_generations a t = Except.ok gens) ∨
      (∃ e, parse_generations a t = Except.error e)) ∧
    parse_generations a none = Except.error Error.deserialization ∧
    (∀ j, deserAPIResponse j = none →
      parse_generations (some Adaptor.HuggingFace) (some j) =
          Except.error Error.deserialization ∧
      parse_generations (some Adaptor.Tgi) (some j) =
          Except.error Error.deserialization) ∧
    (∀ j, deserOllamaAPIResponse j = none →
      parse_generations (some Adaptor.Ollama) (some j) =
        Except.error Error.deserialization) ∧
    (∀ j, deserOpenAIAPIResponse j = none →
      parse_generations (some Adaptor.OpenAi) (some j) =
        Except.error Error.deserialization) := by
  refine ⟨?_, ?_, fun j hj => ⟨?_, ?_⟩, fun j hj => ?_, fun j hj => ?_⟩
  · rcases hp : parse_generations a t with e | gens
    · exact Or.inr ⟨e, rfl⟩
    · exact Or.inl ⟨gens, rfl⟩
  · rcases a with _ | ad
    · rfl
    · cases ad <;> rfl
  · show parse_api_text (some j) = Except.error Error.deserialization
    simp [parse_api_text, hj]
  · show parse_tgi_text (some j) = Except.error Error.deserialization
    simp [parse_tgi_text, hj]
  · show parse_ollama_text (some j) = Except.error Error.deserialization
    simp [parse_ollama_text, hj]
  · show parse_openai_text (some j) = Except.error Error.deserialization
    simp [parse_openai_text, hj]

/-- C10 (witness): the bare JSON number `3` matches no valid shape for any
backend, and every backend's parser maps it to the deserialization error. -/
theorem c10_witness :
    deserAPIResponse (Json.num 3) = none ∧
    parse_generations (some Adaptor.HuggingFace) (some (Json.num 3)) =
        Except.error Error.deserialization ∧
    parse_generations (some Adaptor.Tgi) (some (Json.num 3)) =
        Except.error Error.deserialization ∧
    deserOllamaAPIResponse (Json.num 3) = none ∧
    parse_generations (some Adaptor.Ollama) (some (Json.num 3)) =
        Except.error Error.deserialization ∧
    deserOpenAIAPIResponse (Json.num 3) = none ∧
    parse_generations (some Adaptor.OpenAi) (some (Json.num 3)) =
        Except.error Error.deserialization :=
  ⟨rfl,
   ((c10_parse_total none none).2.2.1 (Json.num 3) rfl).1,
   ((c10_parse_total none none).2.2.1 (Json.num 3) rfl).2,
   rfl,
   (c10_parse_total none none).2.2.2.1 (Json.num 3) rfl,
   rfl,
   (c10_parse_total none none).2.2.2.2 (Json.num 3) rfl⟩

end LlmLs
